import Mathlib

/-!
# War (territory conquest) : battle resolution and mission check

A shallow embedding of `src/war.c`: the territory record, the attack
validation of `faseDeAtaque`, the dice battle of `simularAtaque` and the
mission check of `verificarVitoria`, followed by the properties proved
about them.

Modelling conventions
* `char` buffers holding C strings (`nome`, `cor`) are `String`s; `strcpy`
  is assignment and `strcmp` compares the contents.
* `int` is `Int`. Signed overflow is undefined in C; the only place where
  it could arise is `tropas - 1` on the minimal `int`, and every other
  intermediate value lies between `0` and the two troop counts read at the
  start (`simularAtaque_sem_estouro`).
* `Territorio* mapa` is a `List Territorio`; `mapa[i]` is `ler mapa i`, and
  a field store `mapa[i].campo = v` is `List.set`. Reads and writes outside
  the list are undefined in C, every theorem about them assumes the index in
  range.
* `rand()` is an input: the dice of the `i`-th duel are `dados i`, a pair
  `(dadoAtacante, dadoDefensor)`; `rolar` builds them from the raw outputs of
  `rand()` in the order the source draws them.
* Of the `printf` output only the duel lines `Confronto i: ...` are kept, as
  the field `confrontos` of the loop result.
-/

namespace War

/-- Constant `NUM_TERRITORIOS` of the source, 42. -/
def NUM_TERRITORIOS : Nat := 42

/-- Constant `NUM_MISSOES` of the source, 4. -/
def NUM_MISSOES : Nat := 4

/-- The record `Territorio`: name, colour of the owning army, troop count. -/
structure Territorio where
  nome : String
  cor : String
  tropas : Int
  deriving DecidableEq, Repr

/-- The memory returned by `calloc`: empty strings and zero troops. -/
instance : Inhabited Territorio := ⟨⟨"", "", 0⟩⟩

/-- The map, `Territorio* mapa`. -/
abbrev Mapa := List Territorio

/-- The dice source: the pair `(dadoAtacante, dadoDefensor)` of each duel. -/
abbrev Dados := Nat → Int × Int

/-- The read `mapa[i]`. -/
def ler (mapa : Mapa) (i : Nat) : Territorio := mapa.getD i default

/-- The store `mapa[i].tropas = v`. -/
def gravarTropas (mapa : Mapa) (i : Nat) (v : Int) : Mapa :=
  mapa.set i { ler mapa i with tropas := v }

/-- The store `strcpy(mapa[i].cor, c)`. -/
def gravarCor (mapa : Mapa) (i : Nat) (c : String) : Mapa :=
  mapa.set i { ler mapa i with cor := c }

/-- The result of `strcmp` on two C strings: zero exactly when they are equal,
negative or positive after the order of their characters otherwise. -/
def strcmp (a b : String) : Int :=
  if a = b then 0 else if a.data < b.data then -1 else 1

/-- The dice of duel `i` drawn from the outputs of `rand()`: the source calls
`1 + (rand() % 6)` for the attacker and then again for the defender. -/
def rolar (rand : Nat → Nat) : Dados :=
  fun i => (1 + ((rand (2 * i) % 6 : Nat) : Int), 1 + ((rand (2 * i + 1) % 6 : Nat) : Int))

/-- Function `sortearMissao()`, `1 + (rand() % NUM_MISSOES)`, on the output of
`rand()`. -/
def sortearMissao (rand : Nat) : Int := 1 + ((rand % NUM_MISSOES : Nat) : Int)

/-- What the duel loop of `simularAtaque` leaves behind: the two tallies and
the duels it printed (`Confronto i: Atacante rola a | Defensor rola b`), in
order. -/
structure Placar where
  vitoriasAtacante : Int
  vitoriasDefensor : Int
  confrontos : List (Int × Int)
  deriving DecidableEq, Repr

/-- The duel loop of `simularAtaque`,
`for (int i = 0; i < tropasAtacante && i < tropasDefensor; i++)`, started at
counter `i` with the running tallies and the duels printed so far. -/
def batalha (tropasAtacante tropasDefensor : Int) (dados : Dados)
    (i : Nat) (p : Placar) : Placar :=
  if (i : Int) < tropasAtacante ∧ (i : Int) < tropasDefensor then
    let dadoAtacante := (dados i).1
    let dadoDefensor := (dados i).2
    let confrontos := p.confrontos ++ [(dadoAtacante, dadoDefensor)]
    if dadoAtacante > dadoDefensor then
      batalha tropasAtacante tropasDefensor dados (i + 1)
        ⟨p.vitoriasAtacante + 1, p.vitoriasDefensor, confrontos⟩
    else
      batalha tropasAtacante tropasDefensor dados (i + 1)
        ⟨p.vitoriasAtacante, p.vitoriasDefensor + 1, confrontos⟩
  else
    p
termination_by (tropasAtacante - i).toNat
decreasing_by
  all_goals simp_wf
  all_goals omega

/-- The loop of `simularAtaque` on the troop counts it reads at entry, from
`vitoriasAtacante = 0`, `vitoriasDefensor = 0` and `i = 0`. -/
def placar (mapa : Mapa) (origem destino : Nat) (dados : Dados) : Placar :=
  let tropasAtacante := (ler mapa origem).tropas - 1
  let tropasDefensor := (ler mapa destino).tropas
  batalha tropasAtacante tropasDefensor dados 0 ⟨0, 0, []⟩

/-- The two subtractions under `// Atualizar tropas`:
`mapa[destino].tropas -= vitoriasAtacante; mapa[origem].tropas -= vitoriasDefensor;`. -/
def aplicarPerdas (mapa : Mapa) (origem destino : Nat)
    (vitoriasAtacante vitoriasDefensor : Int) : Mapa :=
  let mapa := gravarTropas mapa destino ((ler mapa destino).tropas - vitoriasAtacante)
  gravarTropas mapa origem ((ler mapa origem).tropas - vitoriasDefensor)

/-- The update part of `simularAtaque` (from `// Atualizar tropas` on), given
the two tallies. -/
def atualizar (mapa : Mapa) (origem destino : Nat)
    (vitoriasAtacante vitoriasDefensor : Int) : Mapa :=
  let mapa := aplicarPerdas mapa origem destino vitoriasAtacante vitoriasDefensor
  if (ler mapa destino).tropas ≤ 0 then
    let mapa := gravarCor mapa destino (ler mapa origem).cor
    let mapa := gravarTropas mapa destino 1
    if (ler mapa origem).tropas > 1 then
      let mapa := gravarTropas mapa origem ((ler mapa origem).tropas - 1)
      gravarTropas mapa destino ((ler mapa destino).tropas + 1)
    else
      mapa
  else
    mapa

/-- Function `simularAtaque(mapa, origem, destino)`: the map after the battle. -/
def simularAtaque (mapa : Mapa) (origem destino : Nat) (dados : Dados) : Mapa :=
  let p := placar mapa origem destino dados
  atualizar mapa origem destino p.vitoriasAtacante p.vitoriasDefensor

/-- The test `mapa[destino].tropas <= 0` as `simularAtaque` evaluates it, after
the two subtractions: the destination is conquered. -/
def conquistado (mapa : Mapa) (origem destino : Nat) (dados : Dados) : Prop :=
  let p := placar mapa origem destino dados
  (ler (aplicarPerdas mapa origem destino p.vitoriasAtacante p.vitoriasDefensor) destino).tropas
    ≤ 0

instance (mapa : Mapa) (origem destino : Nat) (dados : Dados) :
    Decidable (conquistado mapa origem destino dados) := by
  unfold conquistado; infer_instance

/-- Function `faseDeAtaque(mapa)` with the two numbers read from the player, `origem`
and `destino` (1-based): every failed check returns with the map untouched,
otherwise the battle runs on the 0-based indices. -/
def faseDeAtaque (mapa : Mapa) (origem destino : Int) (dados : Dados) : Mapa :=
  if origem < 1 ∨ origem > NUM_TERRITORIOS ∨ destino < 1 ∨ destino > NUM_TERRITORIOS then
    mapa
  else if origem = destino then
    mapa
  else if strcmp (ler mapa (origem - 1).toNat).cor "Azul" ≠ 0 then
    mapa
  else if strcmp (ler mapa (destino - 1).toNat).cor "Azul" = 0 then
    mapa
  else if (ler mapa (origem - 1).toNat).tropas < 2 then
    mapa
  else
    simularAtaque mapa (origem - 1).toNat (destino - 1).toNat dados

/-- The early-return loop of missions 1 and 2: some `i < NUM_TERRITORIOS` has
`strcmp(mapa[i].cor, alvo) == 0`. -/
def existeCor (mapa : Mapa) (alvo : String) : Bool :=
  (List.range NUM_TERRITORIOS).any fun i => decide (strcmp (ler mapa i).cor alvo = 0)

/-- The counting loop of missions 3, 4 and the default: `territoriosConquistados`
after the loop. -/
def territoriosConquistados (mapa : Mapa) (corJogador : String) : Int :=
  (List.range NUM_TERRITORIOS).foldl
    (fun n i => if strcmp (ler mapa i).cor corJogador = 0 then n + 1 else n) 0

/-- Function `verificarVitoria(mapa, missaoId, corJogador)`: the `switch` on
`missaoId` with its five cases. -/
def verificarVitoria (mapa : Mapa) (missaoId : Int) (corJogador : String) : Int :=
  if missaoId = 1 then
    if existeCor mapa "Vermelho" then 0 else 1
  else if missaoId = 2 then
    if existeCor mapa "Verde" then 0 else 1
  else if missaoId = 3 then
    if territoriosConquistados mapa corJogador ≥ 18 then 1 else 0
  else if missaoId = 4 then
    if territoriosConquistados mapa corJogador ≥ 24 then 1 else 0
  else
    if territoriosConquistados mapa corJogador ≥ 15 then 1 else 0

/-- The number of territories of the map whose `cor` is `c`. -/
def contarCor (mapa : Mapa) (c : String) : Nat :=
  mapa.countP fun t => decide (t.cor = c)

/-- The checks of `faseDeAtaque` on 0-based indices: both in range, distinct,
origin owned by "Azul", destination not, origin with at least two troops. -/
structure AtaqueValido (mapa : Mapa) (origem destino : Nat) : Prop where
  origem_lt : origem < NUM_TERRITORIOS
  destino_lt : destino < NUM_TERRITORIOS
  distintos : origem ≠ destino
  origem_azul : (ler mapa origem).cor = "Azul"
  destino_nao_azul : (ler mapa destino).cor ≠ "Azul"
  origem_tropas : 2 ≤ (ler mapa origem).tropas

/-! ## Specification-side vocabulary and example inputs -/

/-- The number of duels `simularAtaque` fights for an origin with `o` troops
and a destination with `d` troops: `min (o - 1) d`, and none when that is not
positive. -/
def numDuelos (o d : Int) : Nat := (min (o - 1) d).toNat

/-- The first `n` dice pairs, in the order they are drawn. -/
def primeirosDados (dados : Dados) (n : Nat) : List (Int × Int) :=
  (List.range n).map dados

/-- A map of 42 territories used to instantiate the theorems: an "Azul" origin
with `o` troops at index 0, a "Vermelho" destination with `d` troops at
index 1, and forty "Verde" territories with one troop each. -/
def mapaExemplo (o d : Int) : Mapa :=
  ⟨"Alaska", "Azul", o⟩ :: ⟨"Alberta", "Vermelho", d⟩ :: List.replicate 40 ⟨"Brasil", "Verde", 1⟩

/-- A map of 42 territories of which the first `n` are "Azul" and the others
"Roxo". -/
def mapaAzuis (n : Nat) : Mapa :=
  List.replicate n ⟨"Alaska", "Azul", 1⟩ ++ List.replicate (42 - n) ⟨"Brasil", "Roxo", 1⟩

/-- Dice with which the defender wins every duel. -/
def dadosDefensor : Dados := fun _ => (1, 6)

/-- Dice with which the attacker wins every duel. -/
def dadosAtacante : Dados := fun _ => (6, 1)

/-- The dice sequence `[(6,1),(5,2)]`, continued with `(1,1)`. -/
def dadosCenario : Dados := fun i => [(6, 1), (5, 2)].getD i (1, 1)

/-! # Theorems -/

/-! ## Reads and stores -/

theorem ler_set (mapa : Mapa) (i j : Nat) (t : Territorio) :
    ler (mapa.set i t) j = if i = j ∧ i < mapa.length then t else ler mapa j := by
  unfold ler
  by_cases h : i = j
  · subst h
    by_cases hi : i < mapa.length
    · simp [List.getD_eq_getElem?_getD, hi]
    · have h₁ : mapa.length ≤ i := Nat.le_of_not_lt hi
      have h₂ : (mapa.set i t).length ≤ i := by simpa using h₁
      simp [List.getD_eq_getElem?_getD, hi, List.getElem?_eq_none h₁, List.getElem?_eq_none h₂]
  · simp [List.getD_eq_getElem?_getD, h, List.getElem?_set_ne h]

theorem ler_gravarTropas (mapa : Mapa) (i j : Nat) (v : Int) :
    ler (gravarTropas mapa i v) j
      = if i = j ∧ i < mapa.length then { ler mapa i with tropas := v } else ler mapa j := by
  simp [gravarTropas, ler_set]

theorem ler_gravarCor (mapa : Mapa) (i j : Nat) (c : String) :
    ler (gravarCor mapa i c) j
      = if i = j ∧ i < mapa.length then { ler mapa i with cor := c } else ler mapa j := by
  simp [gravarCor, ler_set]

@[simp] theorem length_gravarTropas (mapa : Mapa) (i : Nat) (v : Int) :
    (gravarTropas mapa i v).length = mapa.length := by
  simp [gravarTropas]

@[simp] theorem length_gravarCor (mapa : Mapa) (i : Nat) (c : String) :
    (gravarCor mapa i c).length = mapa.length := by
  simp [gravarCor]

theorem ler_eq_getElem (mapa : Mapa) (i : Nat) (h : i < mapa.length) : ler mapa i = mapa[i] := by
  unfold ler
  rw [List.getD_eq_getElem _ _ h]

theorem ler_mem (mapa : Mapa) (i : Nat) (h : i < mapa.length) : ler mapa i ∈ mapa := by
  unfold ler
  rw [List.getD_eq_getElem _ _ h]
  exact List.getElem_mem h

theorem mem_iff_ler (mapa : Mapa) (t : Territorio) :
    t ∈ mapa ↔ ∃ i, i < mapa.length ∧ ler mapa i = t := by
  constructor
  · intro h
    obtain ⟨i, hi, rfl⟩ := List.getElem_of_mem h
    exact ⟨i, hi, by unfold ler; rw [List.getD_eq_getElem _ _ hi]⟩
  · rintro ⟨i, hi, rfl⟩
    exact ler_mem mapa i hi

theorem ext_ler (m₁ m₂ : Mapa) (hlen : m₁.length = m₂.length)
    (h : ∀ i, i < m₁.length → ler m₁ i = ler m₂ i) : m₁ = m₂ := by
  apply List.ext_getElem hlen
  intro i h₁ h₂
  have := h i h₁
  unfold ler at this
  rwa [List.getD_eq_getElem _ _ h₁, List.getD_eq_getElem _ _ h₂] at this

/-! ## The update step of `simularAtaque` -/

@[simp] theorem length_atualizar (mapa : Mapa) (origem destino : Nat) (va vd : Int) :
    (atualizar mapa origem destino va vd).length = mapa.length := by
  unfold atualizar aplicarPerdas
  simp only []
  split_ifs <;> simp

/-- The destination after the update step. -/
theorem ler_atualizar_destino (mapa : Mapa) (origem destino : Nat) (va vd : Int)
    (ho : origem < mapa.length) (hd : destino < mapa.length) (hne : origem ≠ destino) :
    ler (atualizar mapa origem destino va vd) destino =
      if (ler mapa destino).tropas - va ≤ 0 then
        { nome := (ler mapa destino).nome, cor := (ler mapa origem).cor,
          tropas := if (ler mapa origem).tropas - vd > 1 then 2 else 1 }
      else
        { ler mapa destino with tropas := (ler mapa destino).tropas - va } := by
  have hne' : destino ≠ origem := fun h => hne h.symm
  unfold atualizar aplicarPerdas
  simp only [ler_gravarTropas, ler_gravarCor, length_gravarTropas, length_gravarCor, ho, hd, hne,
    hne', and_true, and_self, if_true, if_false, false_and, true_and]
  split_ifs <;> simp [ler_gravarTropas, ler_gravarCor, ho, hd, hne, hne']

/-- The origin after the update step. -/
theorem ler_atualizar_origem (mapa : Mapa) (origem destino : Nat) (va vd : Int)
    (ho : origem < mapa.length) (hd : destino < mapa.length) (hne : origem ≠ destino) :
    ler (atualizar mapa origem destino va vd) origem =
      { ler mapa origem with
        tropas :=
          if (ler mapa destino).tropas - va ≤ 0 ∧ (ler mapa origem).tropas - vd > 1 then
            (ler mapa origem).tropas - vd - 1
          else (ler mapa origem).tropas - vd } := by
  have hne' : destino ≠ origem := fun h => hne h.symm
  unfold atualizar aplicarPerdas
  simp only [ler_gravarTropas, ler_gravarCor, length_gravarTropas, length_gravarCor, ho, hd, hne,
    hne', and_true, and_self, if_true, if_false, false_and, true_and]
  split_ifs <;> simp_all [ler_gravarTropas, ler_gravarCor, ho, hd, hne, hne']

/-- Every other territory is left as it was by the update step. -/
theorem ler_atualizar_outro (mapa : Mapa) (origem destino k : Nat) (va vd : Int)
    (hko : k ≠ origem) (hkd : k ≠ destino) :
    ler (atualizar mapa origem destino va vd) k = ler mapa k := by
  have hko' : origem ≠ k := fun h => hko h.symm
  have hkd' : destino ≠ k := fun h => hkd h.symm
  unfold atualizar aplicarPerdas
  simp only []
  split_ifs <;> simp [ler_gravarTropas, ler_gravarCor, hko', hkd']

/-! ## The duel loop -/

/-- The loop started at counter `i` runs the `k` duels left, `k` being what
separates `i` from the smaller of the two troop counts. -/
theorem batalha_desde (tA tD : Int) (dados : Dados) :
    ∀ (k i : Nat) (p : Placar), (min tA tD - i).toNat = k →
      batalha tA tD dados i p =
        { vitoriasAtacante :=
            p.vitoriasAtacante + (((List.range' i k).map dados).countP fun par => decide (par.1 > par.2) : Nat)
          vitoriasDefensor :=
            p.vitoriasDefensor + (((List.range' i k).map dados).countP fun par => decide (par.1 ≤ par.2) : Nat)
          confrontos := p.confrontos ++ (List.range' i k).map dados } := by
  intro k
  induction k with
  | zero =>
    intro i p hk
    have hcond : ¬ ((i : Int) < tA ∧ (i : Int) < tD) := by omega
    rw [batalha, if_neg hcond]
    simp
  | succ k ih =>
    intro i p hk
    have hcond : (i : Int) < tA ∧ (i : Int) < tD := by omega
    have hk' : (min tA tD - ((i + 1 : Nat) : Int)).toNat = k := by omega
    rw [batalha, if_pos hcond]
    by_cases hwin : (dados i).1 > (dados i).2
    · have hle : ¬ (dados i).1 ≤ (dados i).2 := by omega
      simp only [hwin, if_true]
      rw [ih (i + 1) _ hk']
      simp [List.range'_succ, hwin, hle, List.countP_cons]
      omega
    · have hle : (dados i).1 ≤ (dados i).2 := by omega
      simp only [hwin, if_false]
      rw [ih (i + 1) _ hk']
      simp [List.range'_succ, hwin, hle, List.countP_cons]
      omega

/-- Closed form of the tallies of `simularAtaque`. -/
theorem placar_eq (mapa : Mapa) (origem destino : Nat) (dados : Dados) :
    placar mapa origem destino dados =
      { vitoriasAtacante :=
          ((primeirosDados dados
            (numDuelos (ler mapa origem).tropas (ler mapa destino).tropas)).countP
              fun par => decide (par.1 > par.2) : Nat)
        vitoriasDefensor :=
          ((primeirosDados dados
            (numDuelos (ler mapa origem).tropas (ler mapa destino).tropas)).countP
              fun par => decide (par.1 ≤ par.2) : Nat)
        confrontos :=
          primeirosDados dados (numDuelos (ler mapa origem).tropas (ler mapa destino).tropas) } := by
  unfold placar
  simp only []
  rw [batalha_desde _ _ dados (numDuelos (ler mapa origem).tropas (ler mapa destino).tropas) 0
    ⟨0, 0, []⟩ (by simp [numDuelos])]
  simp [primeirosDados, List.range_eq_range']

/-- Each duel is won by exactly one side. -/
theorem countP_vitorias (l : List (Int × Int)) :
    l.countP (fun par => decide (par.1 > par.2)) + l.countP (fun par => decide (par.1 ≤ par.2))
      = l.length := by
  induction l with
  | nil => simp
  | cons par l ih =>
    simp only [gt_iff_lt] at ih
    by_cases h : par.1 > par.2
    · have h' : ¬ par.1 ≤ par.2 := by omega
      simp [List.countP_cons, h, h']
      omega
    · have h' : par.1 ≤ par.2 := by omega
      simp [List.countP_cons, h, h']
      omega

@[simp] theorem length_primeirosDados (dados : Dados) (n : Nat) :
    (primeirosDados dados n).length = n := by
  simp [primeirosDados]

/-- The tallies are non-negative, add up to the number of duels, and that
number is bounded by both troop counts read at entry. -/
theorem placar_limites (mapa : Mapa) (origem destino : Nat) (dados : Dados) :
    0 ≤ (placar mapa origem destino dados).vitoriasAtacante ∧
    0 ≤ (placar mapa origem destino dados).vitoriasDefensor ∧
    (placar mapa origem destino dados).vitoriasAtacante
        + (placar mapa origem destino dados).vitoriasDefensor
      = numDuelos (ler mapa origem).tropas (ler mapa destino).tropas ∧
    ((numDuelos (ler mapa origem).tropas (ler mapa destino).tropas : Nat) : Int)
      = max 0 (min ((ler mapa origem).tropas - 1) (ler mapa destino).tropas) := by
  have h := countP_vitorias
    (primeirosDados dados (numDuelos (ler mapa origem).tropas (ler mapa destino).tropas))
  rw [length_primeirosDados] at h
  rw [placar_eq]
  simp only []
  refine ⟨by omega, by omega, by omega, ?_⟩
  unfold numDuelos
  omega

/-! ## The mission check -/

theorem strcmp_eq_zero (a b : String) : strcmp a b = 0 ↔ a = b := by
  unfold strcmp
  by_cases h : a = b
  · simp [h]
  · simp only [h, if_false, iff_false]
    split_ifs <;> decide

/-- Reading every index of the map in turn gives the map back. -/
theorem map_ler_range (mapa : Mapa) : (List.range mapa.length).map (ler mapa) = mapa := by
  apply List.ext_getElem
  · simp
  · intro i h₁ h₂
    simp only [List.getElem_map, List.getElem_range]
    unfold ler
    rw [List.getD_eq_getElem _ _ h₂]

/-- The early-return loop finds a territory of colour `alvo` exactly when the
map holds one. -/
theorem existeCor_iff (mapa : Mapa) (hlen : mapa.length = NUM_TERRITORIOS) (alvo : String) :
    existeCor mapa alvo = true ↔ ∃ t ∈ mapa, t.cor = alvo := by
  unfold existeCor
  rw [← hlen]
  simp only [List.any_eq_true, List.mem_range, decide_eq_true_eq, strcmp_eq_zero]
  constructor
  · rintro ⟨i, hi, h⟩
    exact ⟨ler mapa i, ler_mem mapa i hi, h⟩
  · rintro ⟨t, ht, h⟩
    obtain ⟨i, hi, rfl⟩ := (mem_iff_ler mapa t).1 ht
    exact ⟨i, hi, h⟩

theorem foldl_contar (c : String) (l : Mapa) (n : Int) :
    l.foldl (fun n t => if strcmp t.cor c = 0 then n + 1 else n) n = n + (contarCor l c : Nat) := by
  induction l generalizing n with
  | nil => simp [contarCor]
  | cons t l ih =>
    simp only [List.foldl_cons]
    rw [ih]
    by_cases h : t.cor = c
    · have h0 : strcmp t.cor c = 0 := (strcmp_eq_zero _ _).2 h
      rw [if_pos h0]
      simp [contarCor, List.countP_cons, h]
      omega
    · have h0 : ¬ strcmp t.cor c = 0 := fun h' => h ((strcmp_eq_zero _ _).1 h')
      simp [contarCor, List.countP_cons, h, h0]

/-- The counting loop returns the number of territories of the player's
colour. -/
theorem territoriosConquistados_eq (mapa : Mapa) (hlen : mapa.length = NUM_TERRITORIOS)
    (corJogador : String) :
    territoriosConquistados mapa corJogador = (contarCor mapa corJogador : Nat) := by
  unfold territoriosConquistados
  rw [← hlen]
  have h : (List.range mapa.length).foldl
        (fun n i => if strcmp (ler mapa i).cor corJogador = 0 then n + 1 else n) (0 : Int)
      = ((List.range mapa.length).map (ler mapa)).foldl
        (fun n t => if strcmp t.cor corJogador = 0 then n + 1 else n) 0 := by
    rw [List.foldl_map]
  rw [h, map_ler_range, foldl_contar]
  simp

/-- No territory of colour `c` exactly when the count of `c` is zero. -/
theorem contarCor_eq_zero (mapa : Mapa) (c : String) :
    contarCor mapa c = 0 ↔ ∀ t ∈ mapa, t.cor ≠ c := by
  simp [contarCor, List.countP_eq_zero]

/-! ## Counting colours across an update -/

theorem countP_set {α : Type} (p : α → Bool) (x : α) :
    ∀ (l : List α) (d : Nat) (hd : d < l.length),
      (l.set d x).countP p + (if p l[d] then 1 else 0)
        = l.countP p + (if p x then 1 else 0) := by
  intro l
  induction l with
  | nil => intro d hd; simp at hd
  | cons a l ih =>
    intro d hd
    cases d with
    | zero =>
      simp only [List.set_cons_zero, List.countP_cons, List.getElem_cons_zero]
      omega
    | succ d =>
      have hd' : d < l.length := by simpa using hd
      have := ih d hd'
      simp only [List.set_cons_succ, List.countP_cons, List.getElem_cons_succ]
      omega

theorem contarCor_eq_map (m : Mapa) (c : String) :
    contarCor m c = (m.map fun t => t.cor).countP fun s => decide (s = c) := by
  unfold contarCor
  rw [List.countP_map]
  rfl

/-- When two maps agree on the colour of every territory but the one at `d`,
their colour counts differ by what `d` contributes. -/
theorem contarCor_mudanca (m m' : Mapa) (d : Nat) (hd : d < m.length)
    (hlen : m'.length = m.length)
    (h : ∀ k, k ≠ d → (ler m' k).cor = (ler m k).cor) (c : String) :
    contarCor m' c + (if (ler m d).cor = c then 1 else 0)
      = contarCor m c + (if (ler m' d).cor = c then 1 else 0) := by
  have hcores : (m'.map fun t => t.cor) = (m.map fun t => t.cor).set d (ler m' d).cor := by
    apply List.ext_getElem
    · simp [hlen]
    · intro k h₁ h₂
      have hk' : k < m'.length := by simpa using h₁
      have hk : k < m.length := by simpa [hlen] using h₁
      by_cases hkd : k = d
      · subst hkd
        simp [ler_eq_getElem _ _ hk']
      · have hdk : d ≠ k := fun e => hkd e.symm
        have := h k hkd
        simp only [ler_eq_getElem _ _ hk', ler_eq_getElem _ _ hk] at this
        simp [List.getElem_set_ne hdk, this]
  have hd' : d < (m.map fun t => t.cor).length := by simpa using hd
  have key := countP_set (fun s => decide (s = c)) (ler m' d).cor (m.map fun t => t.cor) d hd'
  rw [contarCor_eq_map, contarCor_eq_map, hcores]
  have hget : (m.map fun t => t.cor)[d] = (ler m d).cor := by
    simp [ler_eq_getElem _ _ hd]
  rw [hget] at key
  simpa using key

/-! ## The conquest test -/

/-- For distinct indices in range, the conquest test compares the
destination's troops at entry minus `vitoriasAtacante` with zero. -/
theorem conquistado_iff (mapa : Mapa) (origem destino : Nat) (dados : Dados)
    (ho : origem < mapa.length) (hd : destino < mapa.length) (hne : origem ≠ destino) :
    conquistado mapa origem destino dados ↔
      (ler mapa destino).tropas - (placar mapa origem destino dados).vitoriasAtacante ≤ 0 := by
  unfold conquistado aplicarPerdas
  simp [ler_gravarTropas, ho, hd, hne]

/-! ## `simularAtaque` read back at each territory -/

@[simp] theorem length_simularAtaque (mapa : Mapa) (origem destino : Nat) (dados : Dados) :
    (simularAtaque mapa origem destino dados).length = mapa.length := by
  simp [simularAtaque]

theorem ler_simularAtaque_destino (mapa : Mapa) (origem destino : Nat) (dados : Dados)
    (ho : origem < mapa.length) (hd : destino < mapa.length) (hne : origem ≠ destino) :
    ler (simularAtaque mapa origem destino dados) destino =
      if (ler mapa destino).tropas - (placar mapa origem destino dados).vitoriasAtacante ≤ 0 then
        { nome := (ler mapa destino).nome, cor := (ler mapa origem).cor,
          tropas :=
            if (ler mapa origem).tropas - (placar mapa origem destino dados).vitoriasDefensor > 1
            then 2 else 1 }
      else
        { ler mapa destino with
          tropas :=
            (ler mapa destino).tropas - (placar mapa origem destino dados).vitoriasAtacante } := by
  simp only [simularAtaque]
  exact ler_atualizar_destino mapa origem destino _ _ ho hd hne

theorem ler_simularAtaque_origem (mapa : Mapa) (origem destino : Nat) (dados : Dados)
    (ho : origem < mapa.length) (hd : destino < mapa.length) (hne : origem ≠ destino) :
    ler (simularAtaque mapa origem destino dados) origem =
      { ler mapa origem with
        tropas :=
          if (ler mapa destino).tropas - (placar mapa origem destino dados).vitoriasAtacante ≤ 0 ∧
              (ler mapa origem).tropas - (placar mapa origem destino dados).vitoriasDefensor > 1
          then (ler mapa origem).tropas - (placar mapa origem destino dados).vitoriasDefensor - 1
          else (ler mapa origem).tropas - (placar mapa origem destino dados).vitoriasDefensor } := by
  simp only [simularAtaque]
  exact ler_atualizar_origem mapa origem destino _ _ ho hd hne

theorem ler_simularAtaque_outro (mapa : Mapa) (origem destino k : Nat) (dados : Dados)
    (hko : k ≠ origem) (hkd : k ≠ destino) :
    ler (simularAtaque mapa origem destino dados) k = ler mapa k := by
  simp only [simularAtaque]
  exact ler_atualizar_outro mapa origem destino k _ _ hko hkd

/-- The origin of an attack launched with at least two troops keeps at least
one, whatever the dice and the destination. -/
theorem origem_conserva_uma (mapa : Mapa) (origem destino : Nat) (dados : Dados)
    (ho : origem < mapa.length) (hd : destino < mapa.length) (hne : origem ≠ destino)
    (h2 : 2 ≤ (ler mapa origem).tropas) :
    1 ≤ (ler (simularAtaque mapa origem destino dados) origem).tropas := by
  obtain ⟨ha, hb, hsum, hn⟩ := placar_limites mapa origem destino dados
  rw [ler_simularAtaque_origem mapa origem destino dados ho hd hne]
  simp only []
  split_ifs <;> omega

/-- The destination of an attack ends with at least one troop. -/
theorem destino_conserva_uma (mapa : Mapa) (origem destino : Nat) (dados : Dados)
    (ho : origem < mapa.length) (hd : destino < mapa.length) (hne : origem ≠ destino) :
    1 ≤ (ler (simularAtaque mapa origem destino dados) destino).tropas := by
  rw [ler_simularAtaque_destino mapa origem destino dados ho hd hne]
  split_ifs <;> simp only [] <;> omega

/-! ## The checks of `faseDeAtaque` -/

/-- A pair that passes the checks is handed to `simularAtaque`. -/
theorem faseDeAtaque_valido (mapa : Mapa) (origem destino : Nat) (dados : Dados)
    (hv : AtaqueValido mapa origem destino) :
    faseDeAtaque mapa (origem + 1) (destino + 1) dados
      = simularAtaque mapa origem destino dados := by
  obtain ⟨h1, h2, h3, h4, h5, h6⟩ := hv
  unfold NUM_TERRITORIOS at h1 h2
  have e1 : ((origem : Int) + 1 - 1).toNat = origem := by omega
  have e2 : ((destino : Int) + 1 - 1).toNat = destino := by omega
  have c1 : ¬ ((origem : Int) + 1 < 1 ∨ (origem : Int) + 1 > (NUM_TERRITORIOS : Nat) ∨
      (destino : Int) + 1 < 1 ∨ (destino : Int) + 1 > (NUM_TERRITORIOS : Nat)) := by
    unfold NUM_TERRITORIOS; omega
  have c2 : ¬ ((origem : Int) + 1 = destino + 1) := by omega
  have c3 : ¬ (strcmp (ler mapa origem).cor "Azul" ≠ 0) := by
    simp [strcmp_eq_zero, h4]
  have c4 : ¬ (strcmp (ler mapa destino).cor "Azul" = 0) := by
    simp [strcmp_eq_zero, h5]
  have c5 : ¬ ((ler mapa origem).tropas < 2) := by omega
  unfold faseDeAtaque
  rw [if_neg c1, if_neg c2, e1, e2, if_neg c3, if_neg c4, if_neg c5]

/-- Whatever the player types, `faseDeAtaque` either leaves the map alone or
runs `simularAtaque` on a pair that passed every check. -/
theorem faseDeAtaque_casos (mapa : Mapa) (origem destino : Int) (dados : Dados) :
    faseDeAtaque mapa origem destino dados = mapa ∨
    (AtaqueValido mapa (origem - 1).toNat (destino - 1).toNat ∧
      faseDeAtaque mapa origem destino dados
        = simularAtaque mapa (origem - 1).toNat (destino - 1).toNat dados) := by
  unfold faseDeAtaque
  split_ifs with c1 c2 c3 c4 c5
  · exact Or.inl rfl
  · exact Or.inl rfl
  · exact Or.inl rfl
  · exact Or.inl rfl
  · exact Or.inl rfl
  · right
    refine ⟨⟨?_, ?_, ?_, ?_, ?_, ?_⟩, rfl⟩
    · unfold NUM_TERRITORIOS at *; omega
    · unfold NUM_TERRITORIOS at *; omega
    · unfold NUM_TERRITORIOS at *; omega
    · exact (strcmp_eq_zero _ _).1 (not_not.1 c3)
    · exact fun h => c4 ((strcmp_eq_zero _ _).2 h)
    · omega

/-- Closed form of `verificarVitoria` on a map of `NUM_TERRITORIOS`
territories. -/
theorem verificarVitoria_eq (mapa : Mapa) (hlen : mapa.length = NUM_TERRITORIOS)
    (missaoId : Int) (corJogador : String) :
    verificarVitoria mapa missaoId corJogador =
      if missaoId = 1 then (if contarCor mapa "Vermelho" = 0 then 1 else 0)
      else if missaoId = 2 then (if contarCor mapa "Verde" = 0 then 1 else 0)
      else if missaoId = 3 then (if 18 ≤ contarCor mapa corJogador then 1 else 0)
      else if missaoId = 4 then (if 24 ≤ contarCor mapa corJogador then 1 else 0)
      else (if 15 ≤ contarCor mapa corJogador then 1 else 0) := by
  have hex : ∀ alvo, existeCor mapa alvo = true ↔ ¬ contarCor mapa alvo = 0 := by
    intro alvo
    rw [existeCor_iff mapa hlen, contarCor_eq_zero]
    push_neg
    rfl
  unfold verificarVitoria
  simp only [territoriosConquistados_eq mapa hlen, hex, ge_iff_le]
  split_ifs <;> first | rfl | omega

/-! ## Range of the values computed -/

/-- No signed overflow: when the two troop counts read at entry fit an `int`
and the origin's is not the minimal one, every value `simularAtaque` computes
(the attacker's dice count, the tallies, the two differences and the final
troops of both territories) fits an `int`. -/
theorem simularAtaque_sem_estouro (mapa : Mapa) (origem destino : Nat) (dados : Dados)
    (ho : origem < mapa.length) (hd : destino < mapa.length) (hne : origem ≠ destino)
    (hor : -2147483648 < (ler mapa origem).tropas ∧ (ler mapa origem).tropas ≤ 2147483647)
    (hdr : -2147483648 ≤ (ler mapa destino).tropas ∧ (ler mapa destino).tropas ≤ 2147483647) :
    (∀ v ∈ [(ler mapa origem).tropas - 1,
        (placar mapa origem destino dados).vitoriasAtacante,
        (placar mapa origem destino dados).vitoriasDefensor,
        ((placar mapa origem destino dados).confrontos.length : Int),
        (ler mapa destino).tropas - (placar mapa origem destino dados).vitoriasAtacante,
        (ler mapa origem).tropas - (placar mapa origem destino dados).vitoriasDefensor,
        (ler (simularAtaque mapa origem destino dados) origem).tropas,
        (ler (simularAtaque mapa origem destino dados) destino).tropas],
      -2147483648 ≤ v ∧ v ≤ 2147483647) := by
  obtain ⟨ha, hb, hsum, hn⟩ := placar_limites mapa origem destino dados
  have hlen : ((placar mapa origem destino dados).confrontos.length : Int)
      = numDuelos (ler mapa origem).tropas (ler mapa destino).tropas := by
    rw [placar_eq]; simp only [length_primeirosDados]
  rw [ler_simularAtaque_destino mapa origem destino dados ho hd hne,
    ler_simularAtaque_origem mapa origem destino dados ho hd hne]
  intro v hv
  simp only [List.mem_cons, List.mem_singleton, List.not_mem_nil, or_false] at hv
  rcases hv with h | h | h | h | h | h | h | h <;> subst h
  · omega
  · omega
  · omega
  · omega
  · omega
  · omega
  · split_ifs <;> omega
  · split_ifs <;> simp only [] <;> omega

/-! ## The troop floor -/

/-- Read at any index in range, the map after an attack launched with at
least two troops between distinct territories holds at least one troop,
provided the map before did. -/
theorem piso_apos_ataque (mapa : Mapa) (origem destino : Nat) (dados : Dados)
    (ho : origem < mapa.length) (hd : destino < mapa.length) (hne : origem ≠ destino)
    (h2 : 2 ≤ (ler mapa origem).tropas)
    (hpiso : ∀ k, k < mapa.length → 1 ≤ (ler mapa k).tropas) :
    ∀ k, k < mapa.length → 1 ≤ (ler (simularAtaque mapa origem destino dados) k).tropas := by
  intro k hk
  by_cases hko : k = origem
  · subst hko
    exact origem_conserva_uma mapa k destino dados ho hd hne h2
  · by_cases hkd : k = destino
    · subst hkd
      exact destino_conserva_uma mapa origem k dados ho hd hne
    · rw [ler_simularAtaque_outro mapa origem destino k dados hko hkd]
      exact hpiso k hk

/-- Whatever the player types, `faseDeAtaque` keeps every territory at one
troop or more. -/
theorem faseDeAtaque_preserva_piso (mapa : Mapa) (origem destino : Int) (dados : Dados)
    (hlen : mapa.length = NUM_TERRITORIOS)
    (hpiso : ∀ t ∈ mapa, 1 ≤ t.tropas) :
    ∀ t ∈ faseDeAtaque mapa origem destino dados, 1 ≤ t.tropas := by
  rcases faseDeAtaque_casos mapa origem destino dados with h | ⟨hv, h⟩
  · rw [h]; exact hpiso
  · rw [h]
    intro t ht
    obtain ⟨k, hk, rfl⟩ := (mem_iff_ler _ t).1 ht
    rw [length_simularAtaque] at hk
    exact piso_apos_ataque mapa _ _ dados (hlen ▸ hv.origem_lt) (hlen ▸ hv.destino_lt)
      hv.distintos hv.origem_tropas (fun j hj => hpiso _ (ler_mem mapa j hj)) k hk

/-- The mission drawn is one of 1, 2, 3, 4. -/
theorem sortearMissao_faixa (rand : Nat) :
    1 ≤ sortearMissao rand ∧ sortearMissao rand ≤ 4 := by
  simp only [sortearMissao, NUM_MISSOES]
  omega

/-- The dice drawn from `rand()` lie between 1 and 6. -/
theorem rolar_faixa (rand : Nat → Nat) (i : Nat) :
    1 ≤ (rolar rand i).1 ∧ (rolar rand i).1 ≤ 6 ∧ 1 ≤ (rolar rand i).2 ∧ (rolar rand i).2 ≤ 6 := by
  simp only [rolar]
  omega

/-! ## The claims -/

/-- C1. Troop floor of `simularAtaque`: on a map where every territory has at
least one troop, an attack that passes the checks of `faseDeAtaque` leaves
every territory with at least one troop, for every dice sequence (in
particular for dice in 1..6). -/
theorem simularAtaque_preserva_piso (mapa : Mapa) (origem destino : Nat) (dados : Dados)
    (hlen : mapa.length = NUM_TERRITORIOS)
    (hpiso : ∀ t ∈ mapa, 1 ≤ t.tropas)
    (hv : AtaqueValido mapa origem destino) :
    ∀ t ∈ simularAtaque mapa origem destino dados, 1 ≤ t.tropas := by
  intro t ht
  obtain ⟨k, hk, rfl⟩ := (mem_iff_ler _ t).1 ht
  rw [length_simularAtaque] at hk
  have ho : origem < mapa.length := hlen ▸ hv.origem_lt
  have hd : destino < mapa.length := hlen ▸ hv.destino_lt
  exact piso_apos_ataque mapa origem destino dados ho hd hv.distintos hv.origem_tropas
    (fun j hj => hpiso _ (ler_mem mapa j hj)) k hk

/-- Witness of C1: origin with 2 troops against a destination with 5, the
defender winning. -/
theorem simularAtaque_preserva_piso_witness :
    (mapaExemplo 2 5).length = NUM_TERRITORIOS ∧
    (∀ t ∈ mapaExemplo 2 5, 1 ≤ t.tropas) ∧
    AtaqueValido (mapaExemplo 2 5) 0 1 ∧
    ∀ t ∈ simularAtaque (mapaExemplo 2 5) 0 1 dadosDefensor, 1 ≤ t.tropas :=
  ⟨by decide, by decide, by constructor <;> decide,
    simularAtaque_preserva_piso (mapaExemplo 2 5) 0 1 dadosDefensor (by decide) (by decide)
      (by constructor <;> decide)⟩

/-- C2, refuted as stated: no attack that passes the checks of `faseDeAtaque`,
with dice that give the defender every duel fought, leaves the origin with
zero or fewer troops. -/
theorem origem_abaixo_do_piso_impossivel :
    ¬ ∃ (mapa : Mapa) (origem destino : Nat) (dados : Dados),
        mapa.length = NUM_TERRITORIOS ∧
        AtaqueValido mapa origem destino ∧
        (∀ i, i < numDuelos (ler mapa origem).tropas (ler mapa destino).tropas →
          (dados i).1 ≤ (dados i).2) ∧
        (ler (simularAtaque mapa origem destino dados) origem).cor = (ler mapa origem).cor ∧
        (ler (simularAtaque mapa origem destino dados) origem).tropas ≤ 0 := by
  rintro ⟨mapa, origem, destino, dados, hlen, hv, -, -, hle⟩
  have ho : origem < mapa.length := hlen ▸ hv.origem_lt
  have hd : destino < mapa.length := hlen ▸ hv.destino_lt
  have := origem_conserva_uma mapa origem destino dados ho hd hv.distintos hv.origem_tropas
  omega

/-- When the defender wins every duel fought, the attacker's tally is zero. -/
theorem placar_defensor_vence (mapa : Mapa) (origem destino : Nat) (dados : Dados)
    (hdef : ∀ i, i < numDuelos (ler mapa origem).tropas (ler mapa destino).tropas →
      (dados i).1 ≤ (dados i).2) :
    (placar mapa origem destino dados).vitoriasAtacante = 0 := by
  rw [placar_eq]
  simp only []
  have : (primeirosDados dados
      (numDuelos (ler mapa origem).tropas (ler mapa destino).tropas)).countP
        (fun par => decide (par.1 > par.2)) = 0 := by
    rw [List.countP_eq_zero]
    intro par hpar
    simp only [primeirosDados, List.mem_map, List.mem_range] at hpar
    obtain ⟨i, hi, rfl⟩ := hpar
    have := hdef i hi
    simp only [gt_iff_lt, decide_eq_true_eq]
    omega
  rw [this]
  rfl

/-- C2, amended: in an attack that passes the checks of `faseDeAtaque` on a
destination with at least one troop, when the defender wins every duel the
origin keeps its colour and ends with `o - min (o - 1) d` troops, which is at
least one. -/
theorem origem_apos_derrota (mapa : Mapa) (origem destino : Nat) (dados : Dados)
    (hlen : mapa.length = NUM_TERRITORIOS)
    (hv : AtaqueValido mapa origem destino)
    (hd1 : 1 ≤ (ler mapa destino).tropas)
    (hdef : ∀ i, i < numDuelos (ler mapa origem).tropas (ler mapa destino).tropas →
      (dados i).1 ≤ (dados i).2) :
    (ler (simularAtaque mapa origem destino dados) origem).cor = (ler mapa origem).cor ∧
    (ler (simularAtaque mapa origem destino dados) origem).tropas
      = (ler mapa origem).tropas - min ((ler mapa origem).tropas - 1) (ler mapa destino).tropas ∧
    1 ≤ (ler (simularAtaque mapa origem destino dados) origem).tropas := by
  have ho : origem < mapa.length := hlen ▸ hv.origem_lt
  have hd : destino < mapa.length := hlen ▸ hv.destino_lt
  have h2 := hv.origem_tropas
  obtain ⟨ha, hb, hsum, hn⟩ := placar_limites mapa origem destino dados
  have hva := placar_defensor_vence mapa origem destino dados hdef
  rw [ler_simularAtaque_origem mapa origem destino dados ho hd hv.distintos]
  simp only [true_and]
  rw [hva] at hsum ⊢
  have hcond : ¬ ((ler mapa destino).tropas - 0 ≤ 0 ∧
      (ler mapa origem).tropas - (placar mapa origem destino dados).vitoriasDefensor > 1) := by
    omega
  rw [if_neg hcond]
  omega

/-- Witness of C2 amended: the origin with 2 troops attacking a destination
with 5 ends with exactly `2 - min 1 5 = 1` troop. -/
theorem origem_apos_derrota_witness :
    (mapaExemplo 2 5).length = NUM_TERRITORIOS ∧
    AtaqueValido (mapaExemplo 2 5) 0 1 ∧
    1 ≤ (ler (mapaExemplo 2 5) 1).tropas ∧
    (ler (simularAtaque (mapaExemplo 2 5) 0 1 dadosDefensor) 0).cor = "Azul" ∧
    (ler (simularAtaque (mapaExemplo 2 5) 0 1 dadosDefensor) 0).tropas = 1 :=
  have h := origem_apos_derrota (mapaExemplo 2 5) 0 1 dadosDefensor (by decide)
    (by constructor <;> decide) (by decide) (fun _ _ => by simp [dadosDefensor])
  ⟨by decide, by constructor <;> decide, by decide, h.1, h.2.1⟩

/-- C3. Duel tally of `simularAtaque`: with `o` and `d` the troops of origin
and destination and `n = min (o - 1) d` (zero when that is not positive), the
loop fights exactly `n` duels on the first `n` dice pairs in order;
`vitoriasAtacante` counts the pairs with `a > b`, `vitoriasDefensor` those with
`a ≤ b` (ties included), and the two add up to `n`. -/
theorem placar_contagem (mapa : Mapa) (origem destino : Nat) (dados : Dados) :
    (placar mapa origem destino dados).confrontos
      = (List.range (min ((ler mapa origem).tropas - 1) (ler mapa destino).tropas).toNat).map dados ∧
    ((placar mapa origem destino dados).confrontos.length : Int)
      = max 0 (min ((ler mapa origem).tropas - 1) (ler mapa destino).tropas) ∧
    (placar mapa origem destino dados).vitoriasAtacante
      = ((placar mapa origem destino dados).confrontos.countP
          fun par => decide (par.1 > par.2) : Nat) ∧
    (placar mapa origem destino dados).vitoriasDefensor
      = ((placar mapa origem destino dados).confrontos.countP
          fun par => decide (par.1 ≤ par.2) : Nat) ∧
    (((placar mapa origem destino dados).confrontos.countP
        fun par => decide (par.1 = par.2) : Nat) : Int)
      ≤ (placar mapa origem destino dados).vitoriasDefensor ∧
    (placar mapa origem destino dados).vitoriasAtacante
        + (placar mapa origem destino dados).vitoriasDefensor
      = ((placar mapa origem destino dados).confrontos.length : Nat) := by
  obtain ⟨-, -, hsum, hn⟩ := placar_limites mapa origem destino dados
  have hp := placar_eq mapa origem destino dados
  refine ⟨?_, ?_, ?_, ?_, ?_, ?_⟩
  · rw [hp]; rfl
  · rw [hp]; simp only [length_primeirosDados]; exact hn
  · rw [hp]
  · rw [hp]
  · rw [hp]
    simp only []
    exact_mod_cast List.countP_mono_left
      (fun par _ h => by simp only [decide_eq_true_eq] at h ⊢; omega)
  · rw [hsum, hp]
    simp only [length_primeirosDados]

/-- C4. Conquest outcome of `simularAtaque`: for distinct indices in range, when
the destination's troops minus `vitoriasAtacante` is not positive, the
destination takes the origin's colour; with `o'` the origin's troops minus
`vitoriasDefensor`, the final troops are `(o' - 1, 2)` when `o' > 1` and
`(o', 1)` otherwise; the origin's colour, both names and every other territory
are unchanged. -/
theorem simularAtaque_conquista (mapa : Mapa) (origem destino : Nat) (dados : Dados)
    (ho : origem < mapa.length) (hd : destino < mapa.length) (hne : origem ≠ destino)
    (hconq : (ler mapa destino).tropas
      - (placar mapa origem destino dados).vitoriasAtacante ≤ 0) :
    (ler (simularAtaque mapa origem destino dados) destino).cor = (ler mapa origem).cor ∧
    ((ler mapa origem).tropas - (placar mapa origem destino dados).vitoriasDefensor > 1 →
      (ler (simularAtaque mapa origem destino dados) origem).tropas
        = (ler mapa origem).tropas - (placar mapa origem destino dados).vitoriasDefensor - 1 ∧
      (ler (simularAtaque mapa origem destino dados) destino).tropas = 2) ∧
    ((ler mapa origem).tropas - (placar mapa origem destino dados).vitoriasDefensor ≤ 1 →
      (ler (simularAtaque mapa origem destino dados) origem).tropas
        = (ler mapa origem).tropas - (placar mapa origem destino dados).vitoriasDefensor ∧
      (ler (simularAtaque mapa origem destino dados) destino).tropas = 1) ∧
    (ler (simularAtaque mapa origem destino dados) origem).cor = (ler mapa origem).cor ∧
    (ler (simularAtaque mapa origem destino dados) origem).nome = (ler mapa origem).nome ∧
    (ler (simularAtaque mapa origem destino dados) destino).nome = (ler mapa destino).nome ∧
    (simularAtaque mapa origem destino dados).length = mapa.length ∧
    ∀ k, k ≠ origem → k ≠ destino →
      ler (simularAtaque mapa origem destino dados) k = ler mapa k := by
  rw [ler_simularAtaque_destino mapa origem destino dados ho hd hne,
    ler_simularAtaque_origem mapa origem destino dados ho hd hne, if_pos hconq]
  refine ⟨rfl, ?_, ?_, rfl, rfl, rfl, length_simularAtaque _ _ _ _, ?_⟩
  · intro h
    simp [hconq, h]
  · intro h
    have h' : ¬ (ler mapa origem).tropas
        - (placar mapa origem destino dados).vitoriasDefensor > 1 := by omega
    simp only [h', and_false, if_false, and_self]
  · intro k hko hkd
    exact ler_simularAtaque_outro mapa origem destino k dados hko hkd

/-- Witness of C4: 5 troops against 2 with the attacker winning both duels. -/
theorem simularAtaque_conquista_witness :
    (0 < (mapaExemplo 5 2).length ∧ 1 < (mapaExemplo 5 2).length ∧ (0 : Nat) ≠ 1 ∧
      (ler (mapaExemplo 5 2) 1).tropas
        - (placar (mapaExemplo 5 2) 0 1 dadosAtacante).vitoriasAtacante ≤ 0) ∧
    (ler (simularAtaque (mapaExemplo 5 2) 0 1 dadosAtacante) 1).cor
      = (ler (mapaExemplo 5 2) 0).cor :=
  have hc : (ler (mapaExemplo 5 2) 1).tropas
      - (placar (mapaExemplo 5 2) 0 1 dadosAtacante).vitoriasAtacante ≤ 0 := by
    simp [placar, batalha, ler, mapaExemplo, dadosAtacante]
  ⟨⟨by decide, by decide, by decide, hc⟩,
    (simularAtaque_conquista (mapaExemplo 5 2) 0 1 dadosAtacante (by decide) (by decide)
      (by decide) hc).1⟩

/-- C5. Defended outcome of `simularAtaque`: for distinct indices in range,
when the destination's troops minus `vitoriasAtacante` is positive, the map
after the call is the map before except that the origin has lost
`vitoriasDefensor` troops and the destination `vitoriasAtacante`; no colour
and no name changes and no other territory is touched. -/
theorem simularAtaque_defendido (mapa : Mapa) (origem destino : Nat) (dados : Dados)
    (ho : origem < mapa.length) (hd : destino < mapa.length) (hne : origem ≠ destino)
    (hdef : (ler mapa destino).tropas
      - (placar mapa origem destino dados).vitoriasAtacante > 0) :
    ler (simularAtaque mapa origem destino dados) origem
      = { ler mapa origem with
          tropas := (ler mapa origem).tropas
            - (placar mapa origem destino dados).vitoriasDefensor } ∧
    ler (simularAtaque mapa origem destino dados) destino
      = { ler mapa destino with
          tropas := (ler mapa destino).tropas
            - (placar mapa origem destino dados).vitoriasAtacante } ∧
    (simularAtaque mapa origem destino dados).length = mapa.length ∧
    (∀ k, k ≠ origem → k ≠ destino →
      ler (simularAtaque mapa origem destino dados) k = ler mapa k) ∧
    (∀ k, (ler (simularAtaque mapa origem destino dados) k).cor = (ler mapa k).cor ∧
      (ler (simularAtaque mapa origem destino dados) k).nome = (ler mapa k).nome) ∧
    simularAtaque mapa origem destino dados
      = (mapa.set destino
          { ler mapa destino with
            tropas := (ler mapa destino).tropas
              - (placar mapa origem destino dados).vitoriasAtacante }).set origem
          { ler mapa origem with
            tropas := (ler mapa origem).tropas
              - (placar mapa origem destino dados).vitoriasDefensor } := by
  have hc : ¬ (ler mapa destino).tropas
      - (placar mapa origem destino dados).vitoriasAtacante ≤ 0 := by omega
  have horig := ler_simularAtaque_origem mapa origem destino dados ho hd hne
  have hdest := ler_simularAtaque_destino mapa origem destino dados ho hd hne
  rw [if_neg hc] at hdest
  simp only [hc, false_and, if_false] at horig
  refine ⟨horig, hdest, length_simularAtaque _ _ _ _, ?_, ?_, ?_⟩
  · intro k hko hkd
    exact ler_simularAtaque_outro mapa origem destino k dados hko hkd
  · intro k
    by_cases hko : k = origem
    · subst hko; rw [horig]; exact ⟨rfl, rfl⟩
    · by_cases hkd : k = destino
      · subst hkd; rw [hdest]; exact ⟨rfl, rfl⟩
      · rw [ler_simularAtaque_outro mapa origem destino k dados hko hkd]; exact ⟨rfl, rfl⟩
  · apply ext_ler
    · simp
    · intro k _
      by_cases hko : k = origem
      · subst hko
        rw [horig, ler_set]
        simp [ho]
      · by_cases hkd : k = destino
        · subst hkd
          rw [hdest, ler_set, ler_set]
          simp [hd, hne]
        · have hko' : origem ≠ k := fun e => hko e.symm
          have hkd' : destino ≠ k := fun e => hkd e.symm
          rw [ler_simularAtaque_outro mapa origem destino k dados hko hkd, ler_set, ler_set]
          simp [hko', hkd']

/-- Witness of C5: 2 troops against 5 with the defender winning the duel. -/
theorem simularAtaque_defendido_witness :
    (0 < (mapaExemplo 2 5).length ∧ 1 < (mapaExemplo 2 5).length ∧ (0 : Nat) ≠ 1 ∧
      (ler (mapaExemplo 2 5) 1).tropas
        - (placar (mapaExemplo 2 5) 0 1 dadosDefensor).vitoriasAtacante > 0) ∧
    (simularAtaque (mapaExemplo 2 5) 0 1 dadosDefensor).length = (mapaExemplo 2 5).length :=
  have hc : (ler (mapaExemplo 2 5) 1).tropas
      - (placar (mapaExemplo 2 5) 0 1 dadosDefensor).vitoriasAtacante > 0 := by
    simp [placar, batalha, ler, mapaExemplo, dadosDefensor]
  ⟨⟨by decide, by decide, by decide, hc⟩,
    (simularAtaque_defendido (mapaExemplo 2 5) 0 1 dadosDefensor (by decide) (by decide)
      (by decide) hc).2.2.1⟩

/-- C6, refuted as stated: with 5 troops attacking 2 and the dice
`[(6,1),(5,2)]` the origin ends with 4 troops, not 3 (the destination ends
with 2). -/
theorem cenario_origem_nao_termina_com_tres :
    (ler (simularAtaque (mapaExemplo 5 2) 0 1 dadosCenario) 0).tropas = 4 ∧
    (ler (simularAtaque (mapaExemplo 5 2) 0 1 dadosCenario) 1).tropas = 2 ∧
    ¬ (ler (simularAtaque (mapaExemplo 5 2) 0 1 dadosCenario) 0).tropas = 3 := by
  simp [simularAtaque, placar, atualizar, aplicarPerdas, batalha, ler, gravarTropas, gravarCor,
    mapaExemplo, dadosCenario]

/-- C6, amended: for an origin with 5 troops attacking a destination with 2 and
dice starting `(6,1),(5,2)`, two duels are fought, the attacker wins both, the
destination is conquered and takes the origin's colour, and the final troops
are origin 4 and destination 2. -/
theorem cenario_conquista (mapa : Mapa) (origem destino : Nat) (dados : Dados)
    (ho : origem < mapa.length) (hd : destino < mapa.length) (hne : origem ≠ destino)
    (h5 : (ler mapa origem).tropas = 5) (h2 : (ler mapa destino).tropas = 2)
    (hd0 : dados 0 = (6, 1)) (hd1 : dados 1 = (5, 2)) :
    (placar mapa origem destino dados).confrontos = [(6, 1), (5, 2)] ∧
    (placar mapa origem destino dados).vitoriasAtacante = 2 ∧
    (placar mapa origem destino dados).vitoriasDefensor = 0 ∧
    conquistado mapa origem destino dados ∧
    (ler (simularAtaque mapa origem destino dados) destino).cor = (ler mapa origem).cor ∧
    (ler (simularAtaque mapa origem destino dados) origem).tropas = 4 ∧
    (ler (simularAtaque mapa origem destino dados) destino).tropas = 2 := by
  have hp : placar mapa origem destino dados = ⟨2, 0, [(6, 1), (5, 2)]⟩ := by
    rw [placar_eq, h5, h2]
    have hn : numDuelos 5 2 = 2 := by decide
    rw [hn]
    simp [primeirosDados, List.range_succ, hd0, hd1]
  rw [conquistado_iff mapa origem destino dados ho hd hne,
    ler_simularAtaque_destino mapa origem destino dados ho hd hne,
    ler_simularAtaque_origem mapa origem destino dados ho hd hne, hp, h5, h2]
  simp

/-- Witness of C6 amended, on the 42-territory example map. -/
theorem cenario_conquista_witness :
    (0 < (mapaExemplo 5 2).length ∧ 1 < (mapaExemplo 5 2).length ∧ (0 : Nat) ≠ 1 ∧
      (ler (mapaExemplo 5 2) 0).tropas = 5 ∧ (ler (mapaExemplo 5 2) 1).tropas = 2 ∧
      dadosCenario 0 = (6, 1) ∧ dadosCenario 1 = (5, 2)) ∧
    (ler (simularAtaque (mapaExemplo 5 2) 0 1 dadosCenario) 1).cor = "Azul" :=
  ⟨⟨by decide, by decide, by decide, by decide, by decide, by decide, by decide⟩,
    (cenario_conquista (mapaExemplo 5 2) 0 1 dadosCenario (by decide) (by decide) (by decide)
      (by decide) (by decide) (by decide) (by decide)).2.2.2.2.1⟩

/-- C7. Elimination missions: on a map of 42 territories, mission 1 is won
exactly when no territory is "Vermelho" and mission 2 exactly when none is
"Verde"; otherwise the result is 0; the result is the same for any player
colour and any map with the same colours (so independent of troop counts). -/
theorem verificarVitoria_eliminar (mapa : Mapa) (hlen : mapa.length = NUM_TERRITORIOS)
    (corJogador : String) :
    (verificarVitoria mapa 1 corJogador = 1 ↔ ∀ t ∈ mapa, t.cor ≠ "Vermelho") ∧
    (¬ (∀ t ∈ mapa, t.cor ≠ "Vermelho") → verificarVitoria mapa 1 corJogador = 0) ∧
    (verificarVitoria mapa 2 corJogador = 1 ↔ ∀ t ∈ mapa, t.cor ≠ "Verde") ∧
    (¬ (∀ t ∈ mapa, t.cor ≠ "Verde") → verificarVitoria mapa 2 corJogador = 0) ∧
    (∀ (mapa' : Mapa) (cor' : String), mapa'.length = NUM_TERRITORIOS →
      (mapa'.map fun t => t.cor) = (mapa.map fun t => t.cor) →
      verificarVitoria mapa' 1 cor' = verificarVitoria mapa 1 corJogador ∧
      verificarVitoria mapa' 2 cor' = verificarVitoria mapa 2 corJogador) := by
  have h1 := verificarVitoria_eq mapa hlen 1 corJogador
  have h2 := verificarVitoria_eq mapa hlen 2 corJogador
  simp only [if_true, show ¬ ((2 : Int) = 1) by decide, if_false] at h1 h2
  rw [h1, h2, ← contarCor_eq_zero, ← contarCor_eq_zero]
  refine ⟨?_, ?_, ?_, ?_, ?_⟩
  · split_ifs with h <;> simp [h]
  · intro h; rw [if_neg h]
  · split_ifs with h <;> simp [h]
  · intro h; rw [if_neg h]
  · intro mapa' cor' hlen' hcores
    have h1' := verificarVitoria_eq mapa' hlen' 1 cor'
    have h2' := verificarVitoria_eq mapa' hlen' 2 cor'
    simp only [if_true, show ¬ ((2 : Int) = 1) by decide, if_false] at h1' h2'
    have hc : ∀ c, contarCor mapa' c = contarCor mapa c := by
      intro c
      rw [contarCor_eq_map, contarCor_eq_map, hcores]
    rw [h1', h2', hc, hc]
    exact ⟨rfl, rfl⟩

/-- Witness of C7: a map with "Vermelho" and "Verde" territories. -/
theorem verificarVitoria_eliminar_witness :
    (mapaExemplo 5 2).length = NUM_TERRITORIOS ∧
    (verificarVitoria (mapaExemplo 5 2) 1 "Azul" = 1 ↔
      ∀ t ∈ mapaExemplo 5 2, t.cor ≠ "Vermelho") :=
  ⟨by decide, (verificarVitoria_eliminar (mapaExemplo 5 2) (by decide) "Azul").1⟩

/-- C8. Control missions: on a map of 42 territories and for a mission other
than 1 and 2, the result is 1 exactly when the number of territories of the
player's colour reaches the threshold (18 for mission 3, 24 for mission 4,
15 for any other identifier) and 0 otherwise; with mission 3, exactly 17
territories give 0 and exactly 18 give 1. -/
theorem verificarVitoria_controlar (mapa : Mapa) (hlen : mapa.length = NUM_TERRITORIOS)
    (missaoId : Int) (corJogador : String) (hm1 : missaoId ≠ 1) (hm2 : missaoId ≠ 2) :
    (verificarVitoria mapa missaoId corJogador = 1 ↔
      (if missaoId = 3 then 18 else if missaoId = 4 then 24 else 15)
        ≤ contarCor mapa corJogador) ∧
    (contarCor mapa corJogador
        < (if missaoId = 3 then 18 else if missaoId = 4 then 24 else 15) →
      verificarVitoria mapa missaoId corJogador = 0) ∧
    (contarCor mapa corJogador = 17 → verificarVitoria mapa 3 corJogador = 0) ∧
    (contarCor mapa corJogador = 18 → verificarVitoria mapa 3 corJogador = 1) := by
  have h := verificarVitoria_eq mapa hlen missaoId corJogador
  have h3 := verificarVitoria_eq mapa hlen 3 corJogador
  simp only [hm1, hm2, if_false] at h
  simp only [show ¬ ((3 : Int) = 1) by decide, show ¬ ((3 : Int) = 2) by decide, if_false,
    if_true] at h3
  rw [h, h3]
  refine ⟨?_, ?_, ?_, ?_⟩
  · split_ifs <;> simp_all
  · split_ifs <;> intro hlt <;> first | rfl | omega
  · intro h17; rw [h17]; decide
  · intro h18; rw [h18]; decide

/-- Witness of C8: mission 3 on a map with exactly 18 "Azul" territories. -/
theorem verificarVitoria_controlar_witness :
    (mapaAzuis 18).length = NUM_TERRITORIOS ∧ (3 : Int) ≠ 1 ∧ (3 : Int) ≠ 2 ∧
    contarCor (mapaAzuis 18) "Azul" = 18 ∧
    verificarVitoria (mapaAzuis 18) 3 "Azul" = 1 :=
  ⟨by decide, by decide, by decide, by decide,
    (verificarVitoria_controlar (mapaAzuis 18) (by decide) 3 "Azul" (by decide)
      (by decide)).2.2.2 (by decide)⟩

/-- C9. Conquest forces a clean sweep and a transfer: in an attack between
distinct territories with origin troops `o ≥ 2` and destination troops
`d ≥ 1`, if the destination is conquered then the attacker won every duel,
exactly `d` duels were fought (so `d ≤ o - 1`), `vitoriasDefensor = 0`, the
subtraction left the destination at exactly 0, and the final troops are
`o - 1` and `2`; the branch where the origin has at most one troop at the
transfer step, leaving the destination with one troop, is not taken. -/
theorem conquista_exige_vitoria_total (mapa : Mapa) (origem destino : Nat) (dados : Dados)
    (ho : origem < mapa.length) (hd : destino < mapa.length) (hne : origem ≠ destino)
    (h2 : 2 ≤ (ler mapa origem).tropas) (h1 : 1 ≤ (ler mapa destino).tropas)
    (hconq : conquistado mapa origem destino dados) :
    (∀ par ∈ (placar mapa origem destino dados).confrontos, par.1 > par.2) ∧
    ((placar mapa origem destino dados).confrontos.length : Int) = (ler mapa destino).tropas ∧
    (ler mapa destino).tropas ≤ (ler mapa origem).tropas - 1 ∧
    (placar mapa origem destino dados).vitoriasAtacante = (ler mapa destino).tropas ∧
    (placar mapa origem destino dados).vitoriasDefensor = 0 ∧
    (ler mapa destino).tropas - (placar mapa origem destino dados).vitoriasAtacante = 0 ∧
    (ler (simularAtaque mapa origem destino dados) origem).tropas
      = (ler mapa origem).tropas - 1 ∧
    (ler (simularAtaque mapa origem destino dados) destino).tropas = 2 ∧
    ¬ ((ler mapa origem).tropas - (placar mapa origem destino dados).vitoriasDefensor ≤ 1) ∧
    (ler (simularAtaque mapa origem destino dados) destino).tropas ≠ 1 := by
  rw [conquistado_iff mapa origem destino dados ho hd hne] at hconq
  obtain ⟨ha, hb, hsum, hn⟩ := placar_limites mapa origem destino dados
  have hp := placar_eq mapa origem destino dados
  have hva : (placar mapa origem destino dados).vitoriasAtacante = (ler mapa destino).tropas := by
    omega
  have hvd : (placar mapa origem destino dados).vitoriasDefensor = 0 := by omega
  have hlen : ((placar mapa origem destino dados).confrontos.length : Int)
      = (ler mapa destino).tropas := by
    rw [hp]; simp only [length_primeirosDados]; omega
  have hall : ∀ par ∈ (placar mapa origem destino dados).confrontos, par.1 > par.2 := by
    have hcount : (placar mapa origem destino dados).confrontos.countP
        (fun par => decide (par.1 > par.2))
        = (placar mapa origem destino dados).confrontos.length := by
      have e1 : (placar mapa origem destino dados).vitoriasAtacante
          = ((placar mapa origem destino dados).confrontos.countP
              fun par => decide (par.1 > par.2) : Nat) := by
        rw [hp]
      omega
    intro par hpar
    have := (List.countP_eq_length.1 hcount) par hpar
    simpa using this
  rw [ler_simularAtaque_destino mapa origem destino dados ho hd hne,
    ler_simularAtaque_origem mapa origem destino dados ho hd hne, if_pos hconq, hvd]
  have hgt : (ler mapa origem).tropas - 0 > 1 := by omega
  simp only [hconq, hgt, and_self, if_true]
  refine ⟨hall, hlen, by omega, hva, trivial, by omega, by omega, trivial, by omega, by decide⟩

/-- Witness of C9: 5 troops against 2 with the attacker winning both duels. -/
theorem conquista_exige_vitoria_total_witness :
    (0 < (mapaExemplo 5 2).length ∧ 1 < (mapaExemplo 5 2).length ∧ (0 : Nat) ≠ 1 ∧
      2 ≤ (ler (mapaExemplo 5 2) 0).tropas ∧ 1 ≤ (ler (mapaExemplo 5 2) 1).tropas ∧
      conquistado (mapaExemplo 5 2) 0 1 dadosAtacante) ∧
    (placar (mapaExemplo 5 2) 0 1 dadosAtacante).vitoriasDefensor = 0 :=
  have hc : conquistado (mapaExemplo 5 2) 0 1 dadosAtacante := by
    simp [conquistado, aplicarPerdas, gravarTropas, placar, batalha, ler, mapaExemplo, dadosAtacante]
  ⟨⟨by decide, by decide, by decide, by decide, by decide, hc⟩,
    (conquista_exige_vitoria_total (mapaExemplo 5 2) 0 1 dadosAtacante (by decide) (by decide)
      (by decide) (by decide) (by decide) hc).2.2.2.2.1⟩

/-- The colour of the destination after `simularAtaque`. -/
theorem cor_destino_apos (mapa : Mapa) (origem destino : Nat) (dados : Dados)
    (ho : origem < mapa.length) (hd : destino < mapa.length) (hne : origem ≠ destino) :
    (ler (simularAtaque mapa origem destino dados) destino).cor
      = if conquistado mapa origem destino dados then (ler mapa origem).cor
        else (ler mapa destino).cor := by
  have hiff := conquistado_iff mapa origem destino dados ho hd hne
  rw [ler_simularAtaque_destino mapa origem destino dados ho hd hne]
  by_cases hq : conquistado mapa origem destino dados
  · rw [if_pos hq, if_pos (hiff.1 hq)]
  · rw [if_neg hq, if_neg (fun h => hq (hiff.2 h))]

/-- How `simularAtaque` changes the number of territories of colour `c`. -/
theorem contarCor_simularAtaque (mapa : Mapa) (origem destino : Nat) (dados : Dados)
    (ho : origem < mapa.length) (hd : destino < mapa.length) (hne : origem ≠ destino)
    (c : String) :
    contarCor (simularAtaque mapa origem destino dados) c
        + (if (ler mapa destino).cor = c then 1 else 0)
      = contarCor mapa c
        + (if (if conquistado mapa origem destino dados then (ler mapa origem).cor
            else (ler mapa destino).cor) = c then 1 else 0) := by
  rw [← cor_destino_apos mapa origem destino dados ho hd hne]
  apply contarCor_mudanca mapa _ destino hd (length_simularAtaque _ _ _ _)
  intro k hkd
  by_cases hko : k = origem
  · subst hko
    rw [ler_simularAtaque_origem mapa k destino dados ho hd hne]
  · rw [ler_simularAtaque_outro mapa origem destino k dados hko hkd]

/-- C10. A met mission stays met across attacks: on a map of 42 territories,
for the player "Azul" and an attack that passes the checks of `faseDeAtaque`,
a mission that `verificarVitoria` reports as met before `simularAtaque` is met
after it; the number of "Azul" territories grows by exactly one on conquest and
is unchanged otherwise, and the number of territories of any other colour does
not increase. -/
theorem missao_cumprida_permanece (mapa : Mapa) (origem destino : Nat) (dados : Dados)
    (hlen : mapa.length = NUM_TERRITORIOS) (hv : AtaqueValido mapa origem destino) :
    (∀ missaoId : Int, verificarVitoria mapa missaoId "Azul" = 1 →
      verificarVitoria (simularAtaque mapa origem destino dados) missaoId "Azul" = 1) ∧
    (conquistado mapa origem destino dados →
      contarCor (simularAtaque mapa origem destino dados) "Azul"
        = contarCor mapa "Azul" + 1) ∧
    (¬ conquistado mapa origem destino dados →
      contarCor (simularAtaque mapa origem destino dados) "Azul" = contarCor mapa "Azul") ∧
    (∀ c : String, c ≠ "Azul" →
      contarCor (simularAtaque mapa origem destino dados) c ≤ contarCor mapa c) := by
  have ho : origem < mapa.length := hlen ▸ hv.origem_lt
  have hd : destino < mapa.length := hlen ▸ hv.destino_lt
  have hcount := contarCor_simularAtaque mapa origem destino dados ho hd hv.distintos
  have hoa := hv.origem_azul
  have hda := hv.destino_nao_azul
  have hazul_conq : conquistado mapa origem destino dados →
      contarCor (simularAtaque mapa origem destino dados) "Azul"
        = contarCor mapa "Azul" + 1 := by
    intro hc
    have := hcount "Azul"
    simp only [hc, if_true, hoa, hda, if_false] at this
    omega
  have hazul_def : ¬ conquistado mapa origem destino dados →
      contarCor (simularAtaque mapa origem destino dados) "Azul" = contarCor mapa "Azul" := by
    intro hc
    have := hcount "Azul"
    simp only [hc, if_false, hda] at this
    omega
  have houtras : ∀ c : String, c ≠ "Azul" →
      contarCor (simularAtaque mapa origem destino dados) c ≤ contarCor mapa c := by
    intro c hc
    have := hcount c
    have hc' : ¬ ("Azul" = c) := fun h => hc h.symm
    by_cases hq : conquistado mapa origem destino dados
    · simp only [hq, if_true, hoa, hc', if_false] at this
      omega
    · simp only [hq, if_false] at this
      omega
  refine ⟨?_, hazul_conq, hazul_def, houtras⟩
  intro missaoId
  have hazul : contarCor mapa "Azul"
      ≤ contarCor (simularAtaque mapa origem destino dados) "Azul" := by
    by_cases hq : conquistado mapa origem destino dados
    · rw [hazul_conq hq]; omega
    · rw [hazul_def hq]
  have hverm := houtras "Vermelho" (by decide)
  have hverde := houtras "Verde" (by decide)
  rw [verificarVitoria_eq mapa hlen,
    verificarVitoria_eq _ ((length_simularAtaque mapa origem destino dados).trans hlen)]
  split_ifs <;> first | (intro; rfl) | (intro h; exact absurd h (by decide)) | omega

/-- Witness of C10: the conquest of the example map by 5 troops against 2. -/
theorem missao_cumprida_permanece_witness :
    (mapaExemplo 5 2).length = NUM_TERRITORIOS ∧ AtaqueValido (mapaExemplo 5 2) 0 1 ∧
    ∀ c : String, c ≠ "Azul" →
      contarCor (simularAtaque (mapaExemplo 5 2) 0 1 dadosAtacante) c
        ≤ contarCor (mapaExemplo 5 2) c :=
  ⟨by decide, by constructor <;> decide,
    (missao_cumprida_permanece (mapaExemplo 5 2) 0 1 dadosAtacante (by decide)
      (by constructor <;> decide)).2.2.2⟩

end War
